import Mathlib

/-!
# Verification of the jetson_tensorrt TensorRT wrapper

Shallow embedding of the engine-lifecycle orchestration in
`src/tensorrt/DIGITSClassifier.cpp`, `src/tensorrt/TensorRTEngine.h` and
`src/tensorrt/DIGITSDetector.h` of csvance/ros_jetson_tensorrt.

The numerical inference, graph optimization and CUDA memory management live
inside the vendor library and are abstracted; what is embedded is the
orchestration the repository itself performs: binding bookkeeping, the
cache-or-build decision, host/device staging sizes, batch construction for
the forward pass, and the shape of the detection decode.  Calls into the
engine layer are recorded as an explicit trace so that ordering claims can
be stated.
-/

namespace jetson_tensorrt

/-- `sizeof(float)` on the target platform: 4 bytes. -/
def sizeofFloat : Nat := 4

/-- `sizeof(float4)` on the target platform: 16 bytes. -/
def sizeofFloat4 : Nat := 16

/-- `nvinfer1::Dims`: a dimension count together with the dimension values.
The C++ struct carries a fixed array `d[8]`; only the first `nbDims` entries
are meaningful, which is what the list records. -/
structure Dims where
  nbDims : Nat
  d : List Nat
  deriving Repr, DecidableEq

/-- `nvinfer1::DimsCHW(c, h, w)`: a three-dimensional CHW shape. -/
def DimsCHW (c h w : Nat) : Dims :=
  { nbDims := 3, d := [c, h, w] }

/-- The number of elements covered by a `Dims`: the product of its first
`nbDims` dimension values. -/
def dimsVolume (dims : Dims) : Nat :=
  (dims.d.take dims.nbDims).prod

/-- `nvinfer1::DataType`: the network precision requested at build time.
Opaque to the wrapper; it is only passed through to the vendor builder. -/
inductive DataType
  | kFLOAT
  | kHALF
  | kINT8
  deriving Repr, DecidableEq

/-- A bound network tensor (`NetworkInput` / `NetworkOutput`): the layer
name, declared dimensions, and element size in bytes registered through
`addInput` / `addOutput`. -/
structure NetworkIO where
  name : String
  dims : Dims
  eleSize : Nat
  deriving Repr, DecidableEq

/-- `MemoryLocation`: where a `LocatedExecutionMemory` lives. -/
inductive MemoryLocation
  | HOST
  | DEVICE
  | MAPPED
  deriving Repr, DecidableEq

/-- `LocatedExecutionMemory`: buffers indexed by `[batchIndex][bufferIndex]`
together with their location.  A `void*` device or host pointer is
abstracted as a `Nat` machine word (for freshly allocated buffers the word
records the allocation size in bytes, the only attribute of an allocation
the orchestration layer determines). -/
structure LocatedExecutionMemory where
  location : MemoryLocation
  batches : List (List Nat)
  deriving Repr, DecidableEq

/-- One call into the engine layer made by a constructor, recorded with the
exact arguments passed. -/
inductive EngineCall
  | addInput (layerName : String) (dims : Dims) (eleSize : Nat)
  | addOutput (layerName : String) (dims : Dims) (eleSize : Nat)
  | loadCache (cachePath : String)
  | loadModel (prototextPath modelPath : String) (maximumBatchSize : Nat)
      (dataType : DataType) (maxNetworkSize : Nat)
  | saveCache (cachePath : String)
  deriving Repr, DecidableEq

/-- Whether an `EngineCall` is a `loadModel` call. -/
def EngineCall.isLoadModel : EngineCall → Bool
  | .loadModel _ _ _ _ _ => true
  | _ => false

/-- Whether an `EngineCall` is a `saveCache` call. -/
def EngineCall.isSaveCache : EngineCall → Bool
  | .saveCache _ => true
  | _ => false

/-- Whether an `EngineCall` is an `addInput` call. -/
def EngineCall.isAddInput : EngineCall → Bool
  | .addInput _ _ _ => true
  | _ => false

/-- Whether an `EngineCall` is an `addOutput` call. -/
def EngineCall.isAddOutput : EngineCall → Bool
  | .addOutput _ _ _ => true
  | _ => false

/-- The possible outcomes of the `loadCache(cachePath)` attempt inside the
constructor: it returns normally, throws `ModelDeserializeException`, or
throws some other exception.  The outcome is an input of the model since it
depends on the filesystem. -/
inductive LoadCacheOutcome
  | success
  | deserializeError
  | otherError
  deriving Repr, DecidableEq

/-- The state of a constructed `DIGITSClassifier` visible to the claims:
the public model-geometry fields and the tensors bound on the engine. -/
structure DIGITSClassifierState where
  modelWidth : Nat
  modelHeight : Nat
  modelDepth : Nat
  networkInputs : List NetworkIO
  networkOutputs : List NetworkIO
  deriving Repr, DecidableEq

namespace DIGITSClassifier

/-- `DIGITSClassifier::INPUT_NAME = "data"`. -/
def INPUT_NAME : String := "data"

/-- `DIGITSClassifier::OUTPUT_NAME = "prob"`. -/
def OUTPUT_NAME : String := "prob"

/-- The `Dims` registered for the input binding:
`nvinfer1::DimsCHW(nbChannels, height, width)`. -/
def inputDims (nbChannels width height : Nat) : Dims :=
  DimsCHW nbChannels height width

/-- The `Dims` registered for the output binding: `nbDims = 1`,
`d[0] = nbClasses`. -/
def outputDims (nbClasses : Nat) : Dims :=
  { nbDims := 1, d := [nbClasses] }

/-- The `DIGITSClassifier` constructor, embedded as the trace of engine
calls it performs together with the state it establishes.  On `otherError`
the exception escapes the `try`/`catch` (which only catches
`ModelDeserializeException`), so construction fails and no state is
returned. -/
def construct (prototextPath modelPath cachePath : String)
    (nbChannels width height nbClasses maximumBatchSize : Nat)
    (dataType : DataType) (maxNetworkSize : Nat)
    (cacheOutcome : LoadCacheOutcome) :
    List EngineCall × Option DIGITSClassifierState :=
  let bindCalls : List EngineCall :=
    [.addInput INPUT_NAME (inputDims nbChannels width height) sizeofFloat,
     .addOutput OUTPUT_NAME (outputDims nbClasses) sizeofFloat]
  let st : DIGITSClassifierState :=
    { modelWidth := width
      modelHeight := height
      modelDepth := nbChannels
      networkInputs := [⟨INPUT_NAME, inputDims nbChannels width height, sizeofFloat⟩]
      networkOutputs := [⟨OUTPUT_NAME, outputDims nbClasses, sizeofFloat⟩] }
  match cacheOutcome with
  | .success => (bindCalls ++ [.loadCache cachePath], some st)
  | .deserializeError =>
      (bindCalls ++
        [.loadCache cachePath,
         .loadModel prototextPath modelPath maximumBatchSize dataType maxNetworkSize,
         .saveCache cachePath], some st)
  | .otherError => (bindCalls ++ [.loadCache cachePath], none)

/-- One call made by `classifyRBGA` into the preprocessor or the engine,
recorded with the exact arguments passed. -/
inductive ClassifyCall
  | inputFromHost (hostPtr : Nat) (size : Nat)
  | rbgaToBGR (width height outputWidth outputHeight : Nat)
  | predictCall (inputs : LocatedExecutionMemory)
  deriving Repr, DecidableEq

/-- `DIGITSClassifier::classifyRBGA(rbga, width, height)`, embedded as the
trace of preprocessor/engine calls, the returned pointer, and the
post-call classifier state.  The engine's `predict` body is not part of the
orchestration layer, so it enters as the function argument `predictFn`
(second argument `true` as at the call site); `preprocessedImageDevice` is
the device pointer returned by the preprocessor's `RBGAtoBGR`.  The C++
returns `predictionOutputs[0][0]` unchecked; the embedding returns `none`
exactly when that access would be out of bounds. -/
def classifyRBGA (st : DIGITSClassifierState)
    (predictFn : LocatedExecutionMemory → Bool → LocatedExecutionMemory)
    (rbga : Nat) (width height : Nat) (preprocessedImageDevice : Nat) :
    List ClassifyCall × Option Nat × DIGITSClassifierState :=
  let batchInputs : List (List Nat) := [[preprocessedImageDevice]]
  let predictionInputs : LocatedExecutionMemory :=
    ⟨MemoryLocation.DEVICE, batchInputs⟩
  let predictionOutputs := predictFn predictionInputs true
  ([.inputFromHost rbga (width * height * sizeofFloat4),
    .rbgaToBGR width height st.modelWidth st.modelHeight,
    .predictCall predictionInputs],
   (predictionOutputs.batches[0]?.bind (fun batch => batch[0]?)),
   st)

end DIGITSClassifier

namespace TensorRTEngine

/-- The engine state relevant to buffer allocation: the maximum batch size
and the tensors bound via `addInput` / `addOutput`. -/
structure EngineState where
  maxBatchSize : Nat
  networkInputs : List NetworkIO
  networkOutputs : List NetworkIO
  deriving Repr, DecidableEq

/-- Modelled from the spec: the body of `TensorRTEngine::allocInputs` is not
under `src/` (only its declaration in `TensorRTEngine.h` is).  Per the spec
it must "allocate host/device buffers consistent with the bound tensor
shapes": for each batch up to the maximum batch size, one buffer per bound
input, of the byte size given by the input's declared dimensions and
element size.  An allocated buffer is represented by its size in bytes. -/
def allocInputs (e : EngineState) (location : MemoryLocation)
    (skipMalloc : Bool) : LocatedExecutionMemory :=
  ⟨location,
   (List.range e.maxBatchSize).map (fun _ =>
     e.networkInputs.map (fun io => dimsVolume io.dims * io.eleSize))⟩

/-- Modelled from the spec: the body of `TensorRTEngine::allocOutputs` is
not under `src/` (only its declaration in `TensorRTEngine.h` is).  Same
shape discipline as `allocInputs`, over the bound outputs. -/
def allocOutputs (e : EngineState) (location : MemoryLocation)
    (skipMalloc : Bool) : LocatedExecutionMemory :=
  ⟨location,
   (List.range e.maxBatchSize).map (fun _ =>
     e.networkOutputs.map (fun io => dimsVolume io.dims * io.eleSize))⟩

/-- Modelled from the spec: the body of `TensorRTEngine::predict` is not
under `src/` (only its declaration in `TensorRTEngine.h` is).  Per the spec
it "execute[s] a batched forward pass" into buffers "consistent with the
bound tensor shapes": for each input batch it produces one output buffer
per bound output.  The numerical contents are produced by the vendor
runtime and enter as the abstract family `outputPtr`. -/
def predict (networkOutputs : List NetworkIO) (outputPtr : Nat → Nat → Nat)
    (inputs : LocatedExecutionMemory) (copyOutputToHost : Bool) :
    LocatedExecutionMemory :=
  ⟨inputs.location,
   (List.range inputs.batches.length).map (fun b =>
     (List.range networkOutputs.length).map (fun o => outputPtr b o))⟩

end TensorRTEngine

/-- `ClassRectangle`: a classified region of an image with a zero indexed
class ID and probability value (from `DIGITSDetector.h`).  The C++
`confidence` field is a `float`; it is modelled as a rational. -/
structure ClassRectangle where
  id : Int
  confidence : Rat
  x : Int
  y : Int
  w : Int
  h : Int
  deriving Repr, DecidableEq

namespace DIGITSDetector

/-- `DIGITSDetector::BBOX_DIM_X = 64`. -/
def BBOX_DIM_X : Nat := 64

/-- `DIGITSDetector::BBOX_DIM_Y = 32`. -/
def BBOX_DIM_Y : Nat := 32

/-- Modelled from the spec: the body of `DIGITSDetector::detectRGBA` /
`detectNV12` is not under `src/` (only declarations in `DIGITSDetector.h`
are).  Per the spec a detection call must "decode a coverage/bounding-box
tensor pair into rectangles via non-max suppression-like clustering": for
every class and every cell of the coverage grid whose coverage value
reaches the threshold, a rectangle is produced whose class id is the
(zero-indexed) class, whose confidence is the coverage value, and whose
pixel coordinates are read from the bounding-box tensor at that cell. -/
def decodeDetections (nbClasses gridW gridH : Nat)
    (coverage : Nat → Nat → Nat → Rat)
    (bbox : Nat → Nat → Nat → Nat → Int) (threshold : Rat) :
    List ClassRectangle :=
  (List.range nbClasses).flatMap (fun c =>
    (List.range gridH).flatMap (fun gy =>
      (List.range gridW).filterMap (fun gx =>
        if threshold ≤ coverage c gx gy then
          some { id := (c : Int)
                 confidence := coverage c gx gy
                 x := bbox c gx gy 0
                 y := bbox c gx gy 1
                 w := bbox c gx gy 2
                 h := bbox c gx gy 3 }
        else none)))

/-- Modelled from the spec: `DIGITSDetector::detectRGBA` decodes the
coverage/bounding-box output tensor pair of the forward pass over the
detector's coverage grid into rectangles. -/
def detectRGBA (nbClasses : Nat) (coverage : Nat → Nat → Nat → Rat)
    (bbox : Nat → Nat → Nat → Nat → Int) (threshold : Rat) :
    List ClassRectangle :=
  decodeDetections nbClasses BBOX_DIM_X BBOX_DIM_Y coverage bbox threshold

/-- Modelled from the spec: `DIGITSDetector::detectNV12` converts the NV12
image to RGBA and then performs the same decode as `detectRGBA`. -/
def detectNV12 (nbClasses : Nat) (coverage : Nat → Nat → Nat → Rat)
    (bbox : Nat → Nat → Nat → Nat → Int) (threshold : Rat) :
    List ClassRectangle :=
  decodeDetections nbClasses BBOX_DIM_X BBOX_DIM_Y coverage bbox threshold

end DIGITSDetector

end jetson_tensorrt

/-! ## Theorems about the claims -/

namespace jetson_tensorrt

open DIGITSClassifier TensorRTEngine DIGITSDetector

/-- Claim C1: For every construction of a DIGITSClassifier, the engine is first
loaded by attempting `loadCache(cachePath)`; if and only if that attempt
fails with a `ModelDeserializeException` does the constructor fall back to
`loadModel(prototextPath, modelPath, ...)` followed by
`saveCache(cachePath)`, so on a successful cache load neither `loadModel`
nor `saveCache` is invoked, and on a cache miss the freshly built engine is
persisted to the same `cachePath`. -/
theorem classifier_cache_or_build (prototextPath modelPath cachePath : String)
    (nbChannels width height nbClasses maximumBatchSize : Nat)
    (dataType : DataType) (maxNetworkSize : Nat) (oc : LoadCacheOutcome) :
    EngineCall.loadCache cachePath ∈
      (construct prototextPath modelPath cachePath nbChannels width height
        nbClasses maximumBatchSize dataType maxNetworkSize oc).1 ∧
    (EngineCall.loadModel prototextPath modelPath maximumBatchSize dataType
        maxNetworkSize ∈
      (construct prototextPath modelPath cachePath nbChannels width height
        nbClasses maximumBatchSize dataType maxNetworkSize oc).1 ↔
      oc = LoadCacheOutcome.deserializeError) ∧
    (EngineCall.saveCache cachePath ∈
      (construct prototextPath modelPath cachePath nbChannels width height
        nbClasses maximumBatchSize dataType maxNetworkSize oc).1 ↔
      oc = LoadCacheOutcome.deserializeError) ∧
    (construct prototextPath modelPath cachePath nbChannels width height
        nbClasses maximumBatchSize dataType maxNetworkSize
        LoadCacheOutcome.deserializeError).1 =
      [EngineCall.addInput INPUT_NAME (inputDims nbChannels width height)
         sizeofFloat,
       EngineCall.addOutput OUTPUT_NAME (outputDims nbClasses) sizeofFloat,
       EngineCall.loadCache cachePath,
       EngineCall.loadModel prototextPath modelPath maximumBatchSize dataType
         maxNetworkSize,
       EngineCall.saveCache cachePath] := by
  refine ⟨?_, ?_, ?_, rfl⟩ <;> cases oc <;> simp [construct]

/-- Claim C2: The DIGITSClassifier constructor registers, before any cache load
or model build, exactly one named input binding "data" with CHW dimensions
(nbChannels, height, width) and element size `sizeof(float)`, and exactly
one named output binding "prob" with a one-dimensional shape whose single
dimension equals nbClasses and element size `sizeof(float)`. -/
theorem classifier_bindings_registered_first
    (prototextPath modelPath cachePath : String)
    (nbChannels width height nbClasses maximumBatchSize : Nat)
    (dataType : DataType) (maxNetworkSize : Nat) (oc : LoadCacheOutcome) :
    (construct prototextPath modelPath cachePath nbChannels width height
        nbClasses maximumBatchSize dataType maxNetworkSize oc).1.take 2 =
      [EngineCall.addInput "data" (DimsCHW nbChannels height width) 4,
       EngineCall.addOutput "prob" { nbDims := 1, d := [nbClasses] } 4] ∧
    ((construct prototextPath modelPath cachePath nbChannels width height
        nbClasses maximumBatchSize dataType maxNetworkSize oc).1.drop 2).all
      (fun c => !c.isAddInput && !c.isAddOutput) = true := by
  cases oc <;> exact ⟨rfl, rfl⟩

/-- Claim C3: On a cache miss, the engine is built by calling `loadModel` with
exactly the caller-supplied budget parameters: `maximumBatchSize` as the
batch budget, `maxNetworkSize` as the device-memory size budget in bytes,
and `dataType` as the network precision; none of these values is altered
before the build. -/
theorem classifier_build_budget_unaltered
    (prototextPath modelPath cachePath : String)
    (nbChannels width height nbClasses maximumBatchSize : Nat)
    (dataType : DataType) (maxNetworkSize : Nat) :
    EngineCall.loadModel prototextPath modelPath maximumBatchSize dataType
        maxNetworkSize ∈
      (construct prototextPath modelPath cachePath nbChannels width height
        nbClasses maximumBatchSize dataType maxNetworkSize
        LoadCacheOutcome.deserializeError).1 := by
  simp [construct]

/-- Claim C4: For every call to `classifyRBGA(rbga, width, height)`, the forward
pass is executed as a batch of exactly one image: the input structure
passed to `predict` contains exactly one batch entry holding exactly one
device pointer (the preprocessed image), and the returned value is the
pointer stored at batch index 0, output index 0 of the prediction
outputs. -/
theorem classify_single_image_batch (st : DIGITSClassifierState)
    (predictFn : LocatedExecutionMemory → Bool → LocatedExecutionMemory)
    (rbga width height preprocessedImageDevice : Nat) :
    ClassifyCall.predictCall
        ⟨MemoryLocation.DEVICE, [[preprocessedImageDevice]]⟩ ∈
      (classifyRBGA st predictFn rbga width height
        preprocessedImageDevice).1 ∧
    (classifyRBGA st predictFn rbga width height
        preprocessedImageDevice).2.1 =
      ((predictFn ⟨MemoryLocation.DEVICE, [[preprocessedImageDevice]]⟩
          true).batches[0]?.bind (fun batch => batch[0]?)) := by
  exact ⟨by simp [classifyRBGA], rfl⟩

/-- Claim C5: For every call to `classifyRBGA`, before inference the RBGA image
is staged from host to device memory as exactly
`width * height * sizeof(float4)` bytes via the preprocessor, and the
staged image is converted from RBGA to BGR resized to the model's width and
height (`modelWidth`, `modelHeight`) before being used as the network
input. -/
theorem classify_staging_and_conversion (st : DIGITSClassifierState)
    (predictFn : LocatedExecutionMemory → Bool → LocatedExecutionMemory)
    (rbga width height preprocessedImageDevice : Nat) :
    (classifyRBGA st predictFn rbga width height
        preprocessedImageDevice).1 =
      [ClassifyCall.inputFromHost rbga (width * height * sizeofFloat4),
       ClassifyCall.rbgaToBGR width height st.modelWidth st.modelHeight,
       ClassifyCall.predictCall
         ⟨MemoryLocation.DEVICE, [[preprocessedImageDevice]]⟩] := rfl


/-- Every rectangle produced by the detection decode carries a zero-indexed
class id below the class count. -/
lemma decodeDetections_id_range (nbClasses gridW gridH : Nat)
    (coverage : Nat → Nat → Nat → Rat) (bbox : Nat → Nat → Nat → Nat → Int)
    (threshold : Rat) :
    (decodeDetections nbClasses gridW gridH coverage bbox threshold).all
      (fun r => decide (0 ≤ r.id ∧ r.id < (nbClasses : Int))) = true := by
  rw [List.all_eq_true]
  intro r hr
  rw [decide_eq_true_eq]
  simp only [decodeDetections, List.mem_flatMap, List.mem_filterMap,
    List.mem_range] at hr
  obtain ⟨c, hc, gy, _, gx, _, hif⟩ := hr
  by_cases hcov : threshold ≤ coverage c gx gy
  · rw [if_pos hcov] at hif
    obtain ⟨rfl⟩ := Option.some.inj hif
    refine ⟨Int.ofNat_nonneg c, ?_⟩
    show (c : Int) < (nbClasses : Int)
    exact_mod_cast hc
  · rw [if_neg hcov] at hif
    exact absurd hif (Option.noConfusion)

/-- Claim C6: For every detection call on a DIGITSDetector (detectRGBA or
detectNV12), the coverage output tensor and the bounding-box output tensor
are decoded into a finite list of ClassRectangle values, each carrying a
zero-indexed class id, a confidence, and pixel coordinates x, y, w, h. -/
theorem detect_decodes_zero_indexed_rectangles (nbClasses : Nat)
    (coverage : Nat → Nat → Nat → Rat) (bbox : Nat → Nat → Nat → Nat → Int)
    (threshold : Rat) :
    ((detectRGBA nbClasses coverage bbox threshold).all
      (fun r => decide (0 ≤ r.id ∧ r.id < (nbClasses : Int))) = true) ∧
    ((detectNV12 nbClasses coverage bbox threshold).all
      (fun r => decide (0 ≤ r.id ∧ r.id < (nbClasses : Int))) = true) :=
  ⟨decodeDetections_id_range nbClasses BBOX_DIM_X BBOX_DIM_Y coverage bbox
     threshold,
   decodeDetections_id_range nbClasses BBOX_DIM_X BBOX_DIM_Y coverage bbox
     threshold⟩

/-- Claim C8: For every call to allocInputs(location, skipMalloc) and
allocOutputs(location, skipMalloc), the returned LocatedExecutionMemory
structure is shaped consistently with the tensors previously bound via
addInput/addOutput (the entries of networkInputs and networkOutputs), i.e.
one buffer per bound input (respectively output) sized from its declared
dimensions and element size. -/
theorem alloc_shapes_match_bindings (e : EngineState)
    (location : MemoryLocation) (skipMalloc : Bool) :
    (allocInputs e location skipMalloc).location = location ∧
    (allocInputs e location skipMalloc).batches =
      List.replicate e.maxBatchSize
        (e.networkInputs.map (fun io => dimsVolume io.dims * io.eleSize)) ∧
    (allocOutputs e location skipMalloc).location = location ∧
    (allocOutputs e location skipMalloc).batches =
      List.replicate e.maxBatchSize
        (e.networkOutputs.map (fun io => dimsVolume io.dims * io.eleSize)) := by
  refine ⟨rfl, ?_, rfl, ?_⟩ <;>
    simp [allocInputs, allocOutputs]

/-- Claim C9: After any successful DIGITSClassifier construction, whichever
path was taken (cache hit or cache-miss build), the public fields satisfy
modelWidth = width, modelHeight = height, and modelDepth = nbChannels,
where width, height, nbChannels are the constructor arguments; these fields
are not modified by classifyRBGA. -/
theorem classifier_fields_established_and_stable
    (prototextPath modelPath cachePath : String)
    (nbChannels width height nbClasses maximumBatchSize : Nat)
    (dataType : DataType) (maxNetworkSize : Nat) (oc : LoadCacheOutcome)
    (st : DIGITSClassifierState)
    (h : (construct prototextPath modelPath cachePath nbChannels width height
        nbClasses maximumBatchSize dataType maxNetworkSize oc).2 = some st)
    (predictFn : LocatedExecutionMemory → Bool → LocatedExecutionMemory)
    (rbga imgWidth imgHeight preprocessedImageDevice : Nat) :
    st.modelWidth = width ∧ st.modelHeight = height ∧
    st.modelDepth = nbChannels ∧
    (classifyRBGA st predictFn rbga imgWidth imgHeight
      preprocessedImageDevice).2.2 = st := by
  cases oc
  case success =>
    simp only [construct, Option.some.injEq] at h
    subst h; exact ⟨rfl, rfl, rfl, rfl⟩
  case deserializeError =>
    simp only [construct, Option.some.injEq] at h
    subst h; exact ⟨rfl, rfl, rfl, rfl⟩
  case otherError =>
    simp [construct] at h

/-- Concrete instantiation of `classifier_fields_established_and_stable`:
a classifier built with nbChannels 3, width 640, height 480 on the cache-hit
path has modelWidth 640, modelHeight 480, modelDepth 3, and classifyRBGA
leaves its state unchanged. -/
theorem classifier_fields_witness :
    (⟨640, 480, 3, [⟨"data", DimsCHW 3 480 640, 4⟩],
        [⟨"prob", ⟨1, [10]⟩, 4⟩]⟩ : DIGITSClassifierState).modelWidth = 640 ∧
    (⟨640, 480, 3, [⟨"data", DimsCHW 3 480 640, 4⟩],
        [⟨"prob", ⟨1, [10]⟩, 4⟩]⟩ : DIGITSClassifierState).modelHeight = 480 ∧
    (⟨640, 480, 3, [⟨"data", DimsCHW 3 480 640, 4⟩],
        [⟨"prob", ⟨1, [10]⟩, 4⟩]⟩ : DIGITSClassifierState).modelDepth = 3 ∧
    (classifyRBGA
      (⟨640, 480, 3, [⟨"data", DimsCHW 3 480 640, 4⟩],
        [⟨"prob", ⟨1, [10]⟩, 4⟩]⟩ : DIGITSClassifierState)
      (fun m _ => m) 0 5 5 7).2.2 =
      (⟨640, 480, 3, [⟨"data", DimsCHW 3 480 640, 4⟩],
        [⟨"prob", ⟨1, [10]⟩, 4⟩]⟩ : DIGITSClassifierState) :=
  classifier_fields_established_and_stable "net.prototxt" "net.caffemodel"
    "net.tensorcache" 3 640 480 10 1 DataType.kFLOAT 1073741824
    LoadCacheOutcome.success _ rfl (fun m _ => m) 0 5 5 7

/-- Claim C10: Every call to classifyRBGA that returns does so by indexing
the prediction outputs at batch index 0, output index 0; this access is in
bounds, i.e. the LocatedExecutionMemory returned by predict always contains
at least one batch with at least one output buffer. -/
theorem classify_output_access_in_bounds
    (prototextPath modelPath cachePath : String)
    (nbChannels width height nbClasses maximumBatchSize : Nat)
    (dataType : DataType) (maxNetworkSize : Nat) (oc : LoadCacheOutcome)
    (st : DIGITSClassifierState)
    (h : (construct prototextPath modelPath cachePath nbChannels width height
        nbClasses maximumBatchSize dataType maxNetworkSize oc).2 = some st)
    (outputPtr : Nat → Nat → Nat)
    (rbga imgWidth imgHeight preprocessedImageDevice : Nat) :
    (classifyRBGA st (TensorRTEngine.predict st.networkOutputs outputPtr)
      rbga imgWidth imgHeight preprocessedImageDevice).2.1 =
      some (outputPtr 0 0) := by
  cases oc
  case success =>
    simp only [construct, Option.some.injEq] at h
    subst h; rfl
  case deserializeError =>
    simp only [construct, Option.some.injEq] at h
    subst h; rfl
  case otherError =>
    simp [construct] at h

/-- Concrete instantiation of `classify_output_access_in_bounds`: on the
cache-hit path, classifyRBGA returns the pointer the forward pass stored at
batch 0, output 0. -/
theorem classify_output_access_witness :
    (classifyRBGA
      (⟨640, 480, 3, [⟨"data", DimsCHW 3 480 640, 4⟩],
        [⟨"prob", ⟨1, [10]⟩, 4⟩]⟩ : DIGITSClassifierState)
      (TensorRTEngine.predict
        (⟨640, 480, 3, [⟨"data", DimsCHW 3 480 640, 4⟩],
          [⟨"prob", ⟨1, [10]⟩, 4⟩]⟩ :
          DIGITSClassifierState).networkOutputs (fun _ _ => 99))
      0 5 5 7).2.1 = some 99 :=
  classify_output_access_in_bounds "net.prototxt" "net.caffemodel"
    "net.tensorcache" 3 640 480 10 1 DataType.kFLOAT 1073741824
    LoadCacheOutcome.success _ rfl (fun _ _ => 99) 0 5 5 7

end jetson_tensorrt
